import Mathlib

/-!
Shallow embedding of the model-caching core of `src/cli.py` (class
`ModelService`): cache-key derivation (`get_cache_path`), the local cache
predicate (`is_model_cached`), the remote-bucket tier
(`download_from_bucket`, `upload_to_bucket`) and the orchestrating
`load_model`.  External I/O (filesystem, GCS bucket, HuggingFace hub) is
embedded as an environment record describing each call's outcome, and
`load_model` additionally returns the trace of tier-I/O events it performs,
so that "tier X was never contacted" claims become statements about the
trace.
-/

namespace LlmVm

/-- A filesystem path, as its list of components (Python `pathlib.Path`
segments; `p / q` becomes list append). -/
abbrev PathC := List String

/-- The local filesystem, abstracted as the set (list) of existing paths.
`Path.exists()` becomes membership. -/
structure FileSys where
  existing : List PathC
deriving DecidableEq, Repr

/-- Embedding of Python `Path.exists()` over the abstract filesystem. -/
def FileSys.pathExists (fs : FileSys) (p : PathC) : Bool :=
  fs.existing.contains p

/-- Embedding of Python `MODEL_ID.replace("/", "--")` over the character
list: every `'/'` is replaced by two `'-'` characters (the pattern is a
single character, so occurrences cannot overlap). -/
def replaceSlashes : List Char → List Char
  | [] => []
  | c :: cs => if c = '/' then '-' :: '-' :: replaceSlashes cs else c :: replaceSlashes cs

/-- The cache-key expression `MODEL_ID.replace("/", "--")` shared verbatim by
`get_cache_path` (line 143), `download_from_bucket` (line 157) and
`upload_to_bucket` (line 180) of `src/cli.py`. -/
def model_name (modelId : String) : String :=
  String.mk (replaceSlashes modelId.data)

/-- `ModelService.get_cache_path` (src/cli.py lines 141-144):
`Path(CACHE_DIR) / MODEL_ID.replace("/", "--")`. -/
def get_cache_path (cacheDir : PathC) (modelId : String) : PathC :=
  cacheDir ++ [model_name modelId]

/-- The remote namespace prefix `f"models/\x7bmodel_name\x7d/"` used by
`download_from_bucket` (line 162) and `upload_to_bucket` (line 189). -/
def models_bucket_dir (modelId : String) : String :=
  "models/" ++ model_name modelId ++ "/"

/-- `ModelService.is_model_cached` (src/cli.py lines 146-153):
`cache_path.exists() and (cache_path / "config.json").exists()`.
Pure: its only other action in the source is a log line. -/
def is_model_cached (fs : FileSys) (cacheDir : PathC) (modelId : String) : Bool :=
  let cache_path := get_cache_path cacheDir modelId
  fs.pathExists cache_path && fs.pathExists (cache_path ++ ["config.json"])

/-- One tier-I/O action performed during `load_model`.  `localRead b` is the
pair of `from_pretrained(cache_path, ...)` calls of the cached branch, with
`b` the value of their `local_files_only` flag (lines 117-125); `cacheCheck`
is the `is_model_cached` disk check; the remote events are the
`list_blobs`, per-blob `download_to_filename` loop and `upload_from_filename`
loop; `originFetch` is the `from_pretrained(MODEL_ID, ...)` pair that hits
the HuggingFace hub (lines 89-99). -/
inductive Event where
  | cacheCheck
  | localRead (localFilesOnly : Bool)
  | remoteList
  | remoteDownload
  | originFetch
  | remoteUpload
deriving DecidableEq, Repr

/-- Whether the event is a call against the remote blob store (GCS bucket). -/
def Event.contactsRemote : Event → Bool
  | .remoteList => true
  | .remoteDownload => true
  | .remoteUpload => true
  | _ => false

/-- Whether the event is a call against the authoritative origin
(HuggingFace hub). -/
def Event.contactsOrigin : Event → Bool
  | .originFetch => true
  | _ => false

/-- Whether the event can touch the network: remote and origin calls do; a
local read does only when `local_files_only` is not set. -/
def Event.isNetwork (e : Event) : Bool :=
  e.contactsRemote || e.contactsOrigin ||
    (match e with
     | .localRead b => !b
     | _ => false)

/-- Outcomes of the external calls `load_model` can make, plus the global
configuration it reads (`CACHE_DIR`, `MODEL_ID`) and the filesystem it
checks.  `listBlobs = none` means `list_blobs` raised; `some bs` is the
returned listing.  `downloadOk` abstracts the per-blob download loop: any
exception in it (a failed `download_to_filename`, or an `IndexError` from
`blob.name.split("/", 2)[2]` on a short blob name) is caught by the
enclosing `try` of `download_from_bucket`.  `originAuthMsg` is whether the
origin error's message contains both "token" and "access" (line 108).
The files written to disk by a bucket download are not tracked: no later
statement of `load_model` re-reads the filesystem after that write. -/
structure TierEnv where
  fs : FileSys
  cacheDir : PathC
  modelId : String
  listBlobs : Option (List String)
  downloadOk : Bool
  localReadOk : Bool
  localHandle : Nat
  originOk : Bool
  originAuthMsg : Bool
  originHandle : Nat
  uploadOk : Bool
deriving DecidableEq, Repr

/-- The mutable state of `ModelService`: `self.model` and `self.tokenizer`,
each `None` or a loaded in-memory handle (abstracted as a `Nat` identity). -/
structure ServiceState where
  model : Option Nat
  tokenizer : Option Nat
deriving DecidableEq, Repr

/-- The exceptions `load_model` can let escape: a failed
`from_pretrained(..., local_files_only=True)` pair in the cached branch; a
failed origin fetch (with whether the auth diagnostic of line 108 was
logged); and the `AttributeError` raised by `self.model.device` (line 127)
when `self.model` is still `None`. -/
inductive LoadErr where
  | localRead
  | origin (authLogged : Bool)
  | noneAttr
deriving DecidableEq, Repr

instance : DecidableEq (Except LoadErr Unit) := fun a b =>
  match a, b with
  | Except.ok u, Except.ok v => isTrue (by cases u; cases v; rfl)
  | Except.error e, Except.error f => if h : e = f then isTrue (by rw [h]) else isFalse (by simp [h])
  | Except.ok _, Except.error _ => isFalse (by simp)
  | Except.error _, Except.ok _ => isFalse (by simp)

/-- Result of one `load_model` call: the post-state, the normal return or
escaped exception, and the trace of tier-I/O events in order. -/
structure LoadOutcome where
  state : ServiceState
  result : Except LoadErr Unit
  events : List Event
deriving DecidableEq, Repr

/-- `ModelService.download_from_bucket` (src/cli.py lines 155-176): list the
blobs under `models/<model_name>/`; an empty listing returns `False`; any
exception from the listing or the download loop is caught, logged, and
returns `False`; otherwise all blobs are downloaded and it returns `True`. -/
def download_from_bucket (env : TierEnv) : Bool × List Event :=
  match env.listBlobs with
  | none => (false, [Event.remoteList])
  | some blobs =>
    if blobs.isEmpty then (false, [Event.remoteList])
    else if env.downloadOk then (true, [Event.remoteList, Event.remoteDownload])
    else (false, [Event.remoteList, Event.remoteDownload])

/-- `ModelService.upload_to_bucket` (src/cli.py lines 178-195): walks the
cache directory and uploads every file; an exception is logged and
re-raised (`raise` at line 195), so the call's outcome is `env.uploadOk`. -/
def upload_to_bucket (env : TierEnv) : Bool × List Event :=
  (env.uploadOk, [Event.remoteUpload])

/-- `ModelService.load_model` (src/cli.py lines 75-130).
Control flow mirrored from the source:
if `self.model is not None` return at once (no I/O);
else if not `is_model_cached()`: if `download_from_bucket()` returns `False`,
fetch from HuggingFace (on success `self.tokenizer`/`self.model` are set and
`upload_to_bucket` is attempted with its exception swallowed at lines
103-106; on failure the exception is re-raised, after the auth diagnostic
when the message matches); if it returns `True`, only a log line runs
("Model loaded from bucket") and `self.model` stays `None`, so the
`self.model.device` access at line 127 raises `AttributeError`;
else (cached) the two `from_pretrained(cache_path, local_files_only=True)`
calls run, setting both handles on success and raising on failure.
The outer `except` (lines 128-130) logs and re-raises, preserving the
escaped exception. -/
def load_model (env : TierEnv) (s : ServiceState) : LoadOutcome :=
  if s.model.isSome then
    ⟨s, Except.ok (), []⟩
  else if !(is_model_cached env.fs env.cacheDir env.modelId) then
    let dl := download_from_bucket env
    if !dl.1 then
      if env.originOk then
        let up := upload_to_bucket env
        ⟨⟨some env.originHandle, some env.originHandle⟩, Except.ok (),
          Event.cacheCheck :: dl.2 ++ [Event.originFetch] ++ up.2⟩
      else
        ⟨s, Except.error (LoadErr.origin env.originAuthMsg),
          Event.cacheCheck :: dl.2 ++ [Event.originFetch]⟩
    else
      ⟨s, Except.error LoadErr.noneAttr, Event.cacheCheck :: dl.2⟩
  else
    if env.localReadOk then
      ⟨⟨some env.localHandle, some env.localHandle⟩, Except.ok (),
        [Event.cacheCheck, Event.localRead true]⟩
    else
      ⟨s, Except.error LoadErr.localRead, [Event.cacheCheck, Event.localRead true]⟩

/-- `N` further calls of `load_model` from a state, collecting the combined
event trace (each call a fresh entry to lines 75-78). -/
def load_iter (env : TierEnv) (s : ServiceState) : Nat → ServiceState × List Event
  | 0 => (s, [])
  | n + 1 =>
    let o := load_model env s
    let rest := load_iter env o.state n
    (rest.1, o.events ++ rest.2)

end LlmVm

namespace LlmVm

/-- A state whose `self.model` is already set makes `load_model` return at
once (the guard at lines 77-78) with no I/O and no state change. -/
lemma load_model_noop (env : TierEnv) (s : ServiceState) (h : s.model.isSome = true) :
    load_model env s = ⟨s, Except.ok (), []⟩ := by
  unfold load_model
  simp [h]

/-- Whenever `load_model` returns normally, `self.model` is set in the
post-state (every normal return either kept an already-set model or set it
from the local cache or from the origin). -/
lemma load_model_ok_isSome (env : TierEnv) (s : ServiceState)
    (h : (load_model env s).result = Except.ok ()) :
    (load_model env s).state.model.isSome = true := by
  unfold load_model at h ⊢
  split_ifs at h ⊢ <;> by_cases hd : (download_from_bucket env).1 <;> simp_all

/-- Cold state, empty local cache, bucket listing non-empty, all downloads
succeed: the remote-hit configuration of claim C1. -/
def env_c1 : TierEnv :=
  ⟨⟨[]⟩, ["mnt", "disks", "model-cache"], "org/name",
   some ["models/org--name/config.json", "models/org--name/model.safetensors"],
   true, true, 1, true, false, 2, true⟩

/-- C1: on a cold state with a local miss and a remote hit (non-empty
listing, all downloads succeed), `load_model` downloads the blobs and never
contacts the origin — but then, contrary to the claim, it never loads the
artifact from the local cache: `self.model` stays `None`, the trace has no
local read, and the `self.model.device` access at line 127 raises
`AttributeError`, so the call ends in an escaped exception instead of a
Loaded state. -/
theorem c1_remote_hit_never_loads :
    (load_model env_c1 ⟨none, none⟩).result = Except.error LoadErr.noneAttr ∧
    (load_model env_c1 ⟨none, none⟩).state.model = none ∧
    (load_model env_c1 ⟨none, none⟩).events =
      [Event.cacheCheck, Event.remoteList, Event.remoteDownload] ∧
    Event.originFetch ∉ (load_model env_c1 ⟨none, none⟩).events ∧
    Event.localRead true ∉ (load_model env_c1 ⟨none, none⟩).events := by
  decide

/-- C3: after a first `load_model` call that returns normally, every
subsequent call — under any environment — is an immediate no-op: it returns
normally, performs zero tier-I/O events, and leaves the state (hence the
artifact handle) unchanged; iterating N further calls likewise changes
nothing and produces an empty combined trace. -/
theorem c3_idempotent_after_success (env0 env : TierEnv) (s0 : ServiceState) (N : Nat)
    (h : (load_model env0 s0).result = Except.ok ()) :
    load_model env (load_model env0 s0).state =
      ⟨(load_model env0 s0).state, Except.ok (), []⟩ ∧
    load_iter env (load_model env0 s0).state N = ((load_model env0 s0).state, []) := by
  have hsome := load_model_ok_isSome env0 s0 h
  refine ⟨load_model_noop env _ hsome, ?_⟩
  revert hsome
  generalize (load_model env0 s0).state = s
  intro hsome
  induction N with
  | zero => rfl
  | succ n ih =>
    simp only [load_iter, load_model_noop env s hsome]
    simpa using ih

/-- Environment for the C3 witness: a valid cached entry whose local read
succeeds, so the first `load_model` returns normally. -/
def env_c3 : TierEnv :=
  ⟨⟨[["c", "org--name"], ["c", "org--name", "config.json"]]⟩, ["c"], "org/name",
   some [], true, true, 5, true, false, 7, true⟩

/-- C3 witness: a concrete first load succeeds, and three further calls are
a joint no-op with an empty trace. -/
theorem c3_idempotent_after_success_witness :
    (load_model env_c3 ⟨none, none⟩).result = Except.ok () ∧
    (load_model env_c3 (load_model env_c3 ⟨none, none⟩).state =
      ⟨(load_model env_c3 ⟨none, none⟩).state, Except.ok (), []⟩ ∧
     load_iter env_c3 (load_model env_c3 ⟨none, none⟩).state 3 =
      ((load_model env_c3 ⟨none, none⟩).state, [])) :=
  ⟨by decide, c3_idempotent_after_success env_c3 env_c3 ⟨none, none⟩ 3 (by decide)⟩

/-- C4: when `is_model_cached` is true, every event `load_model` performs
avoids the remote store and the origin, and touches no network at all — in
particular any local read it does carries `local_files_only = true`. -/
theorem c4_local_hit_local_only (env : TierEnv) (s : ServiceState)
    (hc : is_model_cached env.fs env.cacheDir env.modelId = true) :
    ((load_model env s).events.all
      (fun e => !e.contactsRemote && !e.contactsOrigin && !e.isNetwork)) = true := by
  unfold load_model
  split_ifs with hm hr <;> simp_all <;> decide

/-- Environment for the C4 witness: cached entry present locally (and the
bucket even holds the artifact, which must not matter). -/
def env_c4 : TierEnv :=
  ⟨⟨[["c", "org--name"], ["c", "org--name", "config.json"]]⟩, ["c"], "org/name",
   some ["models/org--name/config.json"], true, true, 5, true, false, 7, true⟩

/-- C4 witness: a concrete local hit runs with no remote, origin, or
network event. -/
theorem c4_local_hit_local_only_witness :
    is_model_cached env_c4.fs env_c4.cacheDir env_c4.modelId = true ∧
    ((load_model env_c4 ⟨none, none⟩).events.all
      (fun e => !e.contactsRemote && !e.contactsOrigin && !e.isNetwork)) = true :=
  ⟨by decide, c4_local_hit_local_only env_c4 ⟨none, none⟩ (by decide)⟩

/-- C5: if the bucket listing raises, or the listing is non-empty but the
download loop fails, `download_from_bucket` reports a miss (`False`), and a
cold `load_model` with a local miss falls through to the origin fetch; the
call's outcome is either a normal return or the origin's own error — a
remote-tier error is never what escapes. -/
theorem c5_remote_failure_degrades_to_origin (env : TierEnv) (s : ServiceState)
    (hm : s.model = none)
    (hc : is_model_cached env.fs env.cacheDir env.modelId = false)
    (hfail : env.listBlobs = none ∨ (env.listBlobs.getD [] ≠ [] ∧ env.downloadOk = false)) :
    (download_from_bucket env).1 = false ∧
    Event.originFetch ∈ (load_model env s).events ∧
    ((load_model env s).result = Except.ok () ∨
      (load_model env s).result = Except.error (LoadErr.origin env.originAuthMsg)) := by
  have hdl : (download_from_bucket env).1 = false := by
    unfold download_from_bucket
    rcases hfail with h1 | ⟨h2, h3⟩
    · simp [h1]
    · cases hb : env.listBlobs with
      | none => simp
      | some bs =>
        rw [hb] at h2
        simp only [Option.getD_some] at h2
        simp [List.isEmpty_iff, h2, h3]
  refine ⟨hdl, ?_, ?_⟩ <;>
    · unfold load_model
      simp only [hm, Option.isSome_none, Bool.false_eq_true, if_false, hc, Bool.not_false,
        if_true, hdl]
      by_cases ho : env.originOk <;> simp [ho, upload_to_bucket]

/-- Environment for the C5 witness: the bucket listing raises
(connectivity error). -/
def env_c5 : TierEnv :=
  ⟨⟨[]⟩, ["c"], "org/name", none, true, true, 5, true, false, 7, true⟩

/-- C5 witness: a concrete listing failure degrades to the origin fetch. -/
theorem c5_remote_failure_degrades_to_origin_witness :
    ((⟨none, none⟩ : ServiceState).model = none ∧
     is_model_cached env_c5.fs env_c5.cacheDir env_c5.modelId = false) ∧
    (download_from_bucket env_c5).1 = false ∧
    Event.originFetch ∈ (load_model env_c5 ⟨none, none⟩).events ∧
    ((load_model env_c5 ⟨none, none⟩).result = Except.ok () ∨
      (load_model env_c5 ⟨none, none⟩).result = Except.error (LoadErr.origin env_c5.originAuthMsg)) :=
  ⟨⟨by decide, by decide⟩,
   c5_remote_failure_degrades_to_origin env_c5 ⟨none, none⟩ (by decide) (by decide)
     (Or.inl (by decide))⟩

/-- Environment for the C6 counterexample: valid cached entry, but the
local `from_pretrained(..., local_files_only=True)` pair fails. -/
def env_c6 : TierEnv :=
  ⟨⟨[["c", "org--name"], ["c", "org--name", "config.json"]]⟩, ["c"], "org/name",
   some ["models/org--name/config.json"], true, false, 5, true, false, 7, true⟩

/-- C6 counterexample: on a cached entry whose local read fails, the
local-tier error escapes `load_model` (a non-origin error propagates to the
caller) and no fallback to the remote or origin tier happens — refuting the
claim that local-read errors are caught and converted into a fallback and
that only origin-tier failures propagate. -/
theorem c6_local_read_error_propagates_counterexample :
    (load_model env_c6 ⟨none, none⟩).result = Except.error LoadErr.localRead ∧
    ((load_model env_c6 ⟨none, none⟩).events.all
      (fun e => !e.contactsRemote && !e.contactsOrigin)) = true := by
  decide

/-- C6 amended: errors raised by the local tier's read on a cached entry are
not converted into a fallback — they propagate out of `load_model` to the
caller, with neither the remote store nor the origin contacted. -/
theorem c6_amended_local_read_error_no_fallback (env : TierEnv) (s : ServiceState)
    (hm : s.model = none)
    (hc : is_model_cached env.fs env.cacheDir env.modelId = true)
    (hr : env.localReadOk = false) :
    (load_model env s).result = Except.error LoadErr.localRead ∧
    ((load_model env s).events.all
      (fun e => !e.contactsRemote && !e.contactsOrigin)) = true := by
  unfold load_model
  simp [hm, hc, hr]
  decide

/-- Environment for the C6 amended witness (distinct instance from the
counterexample's). -/
def env_c6w : TierEnv :=
  ⟨⟨[["d", "org--name"], ["d", "org--name", "config.json"]]⟩, ["d"], "org/name",
   none, true, false, 5, true, false, 7, true⟩

/-- C6 amended witness: a concrete failing local read propagates with no
other tier contacted. -/
theorem c6_amended_local_read_error_no_fallback_witness :
    ((⟨none, none⟩ : ServiceState).model = none ∧
     is_model_cached env_c6w.fs env_c6w.cacheDir env_c6w.modelId = true ∧
     env_c6w.localReadOk = false) ∧
    (load_model env_c6w ⟨none, none⟩).result = Except.error LoadErr.localRead ∧
    ((load_model env_c6w ⟨none, none⟩).events.all
      (fun e => !e.contactsRemote && !e.contactsOrigin)) = true :=
  ⟨⟨by decide, by decide, by decide⟩,
   c6_amended_local_read_error_no_fallback env_c6w ⟨none, none⟩ (by decide) (by decide) (by decide)⟩

/-- C7: local miss, remote miss/failure, successful origin fetch, failing
write-back upload: `load_model` still returns normally with the
origin-provided handle installed, and the upload was attempted (its failure
is swallowed at lines 103-106, never surfaced). -/
theorem c7_upload_failure_nonfatal (env : TierEnv) (s : ServiceState)
    (hm : s.model = none)
    (hc : is_model_cached env.fs env.cacheDir env.modelId = false)
    (hdl : (download_from_bucket env).1 = false)
    (ho : env.originOk = true)
    ( _hu : env.uploadOk = false) :
    (load_model env s).result = Except.ok () ∧
    (load_model env s).state.model = some env.originHandle ∧
    Event.remoteUpload ∈ (load_model env s).events := by
  unfold load_model
  simp [hm, hc, hdl, ho, upload_to_bucket]

/-- Environment for the C7 witness: empty local cache, empty bucket
listing, origin succeeds, upload fails. -/
def env_c7 : TierEnv :=
  ⟨⟨[]⟩, ["c"], "org/name", some [], true, true, 5, true, false, 7, false⟩

/-- C7 witness: a concrete failed write-back still yields a normal return
and a usable handle. -/
theorem c7_upload_failure_nonfatal_witness :
    ((⟨none, none⟩ : ServiceState).model = none ∧
     is_model_cached env_c7.fs env_c7.cacheDir env_c7.modelId = false ∧
     (download_from_bucket env_c7).1 = false ∧
     env_c7.originOk = true ∧ env_c7.uploadOk = false) ∧
    (load_model env_c7 ⟨none, none⟩).result = Except.ok () ∧
    (load_model env_c7 ⟨none, none⟩).state.model = some env_c7.originHandle ∧
    Event.remoteUpload ∈ (load_model env_c7 ⟨none, none⟩).events :=
  ⟨⟨by decide, by decide, by decide, by decide, by decide⟩,
   c7_upload_failure_nonfatal env_c7 ⟨none, none⟩ (by decide) (by decide) (by decide)
     (by decide) (by decide)⟩

/-- C8: `is_model_cached` is true exactly when the cache directory exists
and the `config.json` marker inside it exists; in particular a directory
present without the marker is reported as a miss.  The embedded predicate
is a pure function of the filesystem, so the check has no side effects. -/
theorem c8_cached_iff_dir_and_marker (fs : FileSys) (cacheDir : PathC) (modelId : String) :
    (is_model_cached fs cacheDir modelId = true ↔
      fs.pathExists (get_cache_path cacheDir modelId) = true ∧
      fs.pathExists (get_cache_path cacheDir modelId ++ ["config.json"]) = true) ∧
    (fs.pathExists (get_cache_path cacheDir modelId) = true →
      fs.pathExists (get_cache_path cacheDir modelId ++ ["config.json"]) = false →
      is_model_cached fs cacheDir modelId = false) := by
  constructor
  · unfold is_model_cached
    simp [Bool.and_eq_true]
  · intro h1 h2
    unfold is_model_cached
    simp [h1, h2]

/-- C8 witness: a concrete directory without the marker file is a miss. -/
theorem c8_cached_iff_dir_and_marker_witness :
    is_model_cached ⟨[["c", "org--name"]]⟩ ["c"] "org/name" = false :=
  (c8_cached_iff_dir_and_marker ⟨[["c", "org--name"]]⟩ ["c"] "org/name").2
    (by decide) (by decide)

/-- C9: the cache-key derivation is a total pure function (hence
deterministic and stable), evaluated here on identifiers with zero, one and
two separators, and the key of "a/b" differs from the key of "a-b". -/
theorem c9_cache_key_pure_total_separating :
    (∀ s : String, ∃ k : String, model_name s = k) ∧
    model_name "ab" = "ab" ∧
    model_name "a/b" = "a--b" ∧
    model_name "a/b/c" = "a--b--c" ∧
    model_name "a/b" ≠ model_name "a-b" :=
  ⟨fun s => ⟨model_name s, rfl⟩, by decide, by decide, by decide, by decide⟩

/-- C10: the slash-to-double-dash key derivation is not injective: the
distinct identifiers "a/b" and "a--b" share one cache key, hence one local
cache directory (for every cache root) and one remote bucket prefix. -/
theorem c10_cache_key_not_injective :
    model_name "a/b" = model_name "a--b" ∧
    ("a/b" : String) ≠ "a--b" ∧
    (∀ cd : PathC, get_cache_path cd "a/b" = get_cache_path cd "a--b") ∧
    models_bucket_dir "a/b" = models_bucket_dir "a--b" :=
  ⟨by decide, by decide, fun cd => rfl, by decide⟩

end LlmVm
